import Mathlib

/-!
Verification of `cloud-function/setup_bigquery.py`: a provisioning script that
ensures a BigQuery dataset exists, then drop-and-recreates three tables
(`daily_summary`, `trades`, `market_data_archive`) with daily time partitioning
and clustering, and three views (`daily_performance`, `monthly_summary`,
`strike_performance`).

The embedding models the warehouse as an explicit state (a list of datasets and
a list of table/view objects), every client call as an entry in a trace, and
client errors other than not-found via a fault function `Faults` injected into
each call.  Not-found is derived from the state itself (a lookup that returns
`none`), exactly as the Python code distinguishes `NotFound` from other
exceptions.  A raised exception is modelled as `Except.error e` carrying the
execution state at the point of the raise, so propagation leaves the warehouse
state untouched (no rollback).
-/

namespace SpxBq

/-- A BigQuery column definition, as built by `bigquery.SchemaField(...)`:
name, scalar type, mode and the optional default-value expression. -/
structure SchemaField where
  name : String
  fieldType : String
  mode : String
  defaultValueExpression : Option String
deriving DecidableEq

/-- `bigquery.TimePartitioning(type_=..., field=...)`. -/
structure TimePartitioning where
  type_ : String
  field : Option String
deriving DecidableEq

/-- `bigquery.TimePartitioningType.DAY`. -/
def TimePartitioningTypeDAY : String := "DAY"

/-- A warehouse table-or-view object, as built by `bigquery.Table(...)` and
mutated before `client.create_table`.  `numRows` stands for the stored rows of
a pre-existing table (a freshly created table has zero). -/
structure BqTable where
  tableId : String
  schema : Option (List SchemaField)
  timePartitioning : Option TimePartitioning
  clusteringFields : Option (List String)
  viewQuery : Option String
  numRows : Nat
deriving DecidableEq

/-- A dataset object (`bigquery.Dataset(dataset_id)` with a `location`). -/
structure BqDataset where
  datasetId : String
  location : Option String
deriving DecidableEq

/-- The warehouse state the client calls act on. -/
structure WarehouseState where
  datasets : List BqDataset
  tables : List BqTable
deriving DecidableEq

/-- One client API call, recorded in the execution trace. -/
inductive ApiCall where
  | getDataset (datasetId : String)
  | createDataset (d : BqDataset)
  | getTable (tableId : String)
  | deleteTable (tableId : String)
  | createTable (t : BqTable)
deriving DecidableEq

/-- Execution state: warehouse contents plus the trace of calls made so far. -/
structure ExecState where
  state : WarehouseState
  trace : List ApiCall
deriving DecidableEq

/-- Fault injection: which calls raise an error other than not-found. -/
def Faults : Type := ApiCall → Bool

/-- The fault-free client (every call succeeds, lookups may still be absent). -/
def no_faults : Faults := fun _ => false

/-- First table object whose id matches, as `client.get_table` resolves ids. -/
def lookup_table (l : List BqTable) (tableId : String) : Option BqTable :=
  l.find? (fun t => t.tableId == tableId)

/-- First dataset object whose id matches. -/
def lookup_dataset (l : List BqDataset) (datasetId : String) : Option BqDataset :=
  l.find? (fun d => d.datasetId == datasetId)

/-- `client.get_dataset`: records the call; a fault raises; otherwise returns
the dataset when present (`none` models the caught `NotFound`). -/
def client_get_dataset (faults : Faults) (e : ExecState) (datasetId : String) :
    Except ExecState (ExecState × Option BqDataset) :=
  let e1 : ExecState := { e with trace := e.trace ++ [ApiCall.getDataset datasetId] }
  if faults (ApiCall.getDataset datasetId) then Except.error e1
  else Except.ok (e1, lookup_dataset e.state.datasets datasetId)

/-- `client.create_dataset`: records the call; a fault raises; otherwise adds
the dataset object. -/
def client_create_dataset (faults : Faults) (e : ExecState) (d : BqDataset) :
    Except ExecState ExecState :=
  let e1 : ExecState := { e with trace := e.trace ++ [ApiCall.createDataset d] }
  if faults (ApiCall.createDataset d) then Except.error e1
  else Except.ok { e1 with state := { e1.state with datasets := d :: e1.state.datasets } }

/-- `client.get_table`: records the call; a fault raises; otherwise returns the
object when present (`none` models the caught `NotFound`). -/
def client_get_table (faults : Faults) (e : ExecState) (tableId : String) :
    Except ExecState (ExecState × Option BqTable) :=
  let e1 : ExecState := { e with trace := e.trace ++ [ApiCall.getTable tableId] }
  if faults (ApiCall.getTable tableId) then Except.error e1
  else Except.ok (e1, lookup_table e.state.tables tableId)

/-- `client.delete_table`: records the call; a fault raises; otherwise removes
every object of that id. -/
def client_delete_table (faults : Faults) (e : ExecState) (tableId : String) :
    Except ExecState ExecState :=
  let e1 : ExecState := { e with trace := e.trace ++ [ApiCall.deleteTable tableId] }
  if faults (ApiCall.deleteTable tableId) then Except.error e1
  else Except.ok { e1 with state :=
    { e1.state with tables := e1.state.tables.filter (fun t => !(t.tableId == tableId)) } }

/-- `client.create_table`: records the call; a fault raises; otherwise stores
the given object. -/
def client_create_table (faults : Faults) (e : ExecState) (t : BqTable) :
    Except ExecState ExecState :=
  let e1 : ExecState := { e with trace := e.trace ++ [ApiCall.createTable t] }
  if faults (ApiCall.createTable t) then Except.error e1
  else Except.ok { e1 with state := { e1.state with tables := t :: e1.state.tables } }

/-- `bigquery.Table(table_id, schema=schema)` (views pass no schema): a fresh
object with no partitioning, clustering or query and zero rows. -/
def mk_table (tableId : String) (schema : Option (List SchemaField)) : BqTable :=
  { tableId := tableId, schema := schema, timePartitioning := none,
    clusteringFields := none, viewQuery := none, numRows := 0 }

/-- `get_daily_summary_schema` (lines 39-66). -/
def get_daily_summary_schema : List SchemaField :=
  [ { name := "date", fieldType := "DATE", mode := "REQUIRED", defaultValueExpression := none },
    { name := "strategy", fieldType := "STRING", mode := "REQUIRED", defaultValueExpression := some "'MACD_Momentum'" },
    { name := "trading_day", fieldType := "STRING", mode := "REQUIRED", defaultValueExpression := none },
    { name := "spx_bars_count", fieldType := "INTEGER", mode := "REQUIRED", defaultValueExpression := none },
    { name := "entry_signals", fieldType := "INTEGER", mode := "REQUIRED", defaultValueExpression := none },
    { name := "exit_signals", fieldType := "INTEGER", mode := "REQUIRED", defaultValueExpression := none },
    { name := "total_trades", fieldType := "INTEGER", mode := "REQUIRED", defaultValueExpression := none },
    { name := "winning_trades", fieldType := "INTEGER", mode := "REQUIRED", defaultValueExpression := none },
    { name := "losing_trades", fieldType := "INTEGER", mode := "REQUIRED", defaultValueExpression := none },
    { name := "win_rate", fieldType := "FLOAT", mode := "REQUIRED", defaultValueExpression := none },
    { name := "total_profit", fieldType := "FLOAT", mode := "REQUIRED", defaultValueExpression := none },
    { name := "total_loss", fieldType := "FLOAT", mode := "REQUIRED", defaultValueExpression := none },
    { name := "net_pnl", fieldType := "FLOAT", mode := "REQUIRED", defaultValueExpression := none },
    { name := "average_win", fieldType := "FLOAT", mode := "NULLABLE", defaultValueExpression := none },
    { name := "average_loss", fieldType := "FLOAT", mode := "NULLABLE", defaultValueExpression := none },
    { name := "api_requests_made", fieldType := "INTEGER", mode := "REQUIRED", defaultValueExpression := none },
    { name := "execution_time_seconds", fieldType := "FLOAT", mode := "NULLABLE", defaultValueExpression := none },
    { name := "market_open_spx", fieldType := "FLOAT", mode := "NULLABLE", defaultValueExpression := none },
    { name := "market_close_spx", fieldType := "FLOAT", mode := "NULLABLE", defaultValueExpression := none },
    { name := "spx_daily_change", fieldType := "FLOAT", mode := "NULLABLE", defaultValueExpression := none },
    { name := "spx_daily_change_percent", fieldType := "FLOAT", mode := "NULLABLE", defaultValueExpression := none },
    { name := "created_at", fieldType := "TIMESTAMP", mode := "NULLABLE", defaultValueExpression := some "CURRENT_TIMESTAMP()" },
    { name := "cloud_function_version", fieldType := "STRING", mode := "NULLABLE", defaultValueExpression := none },
    { name := "error_message", fieldType := "STRING", mode := "NULLABLE", defaultValueExpression := none } ]

/-- `get_trades_schema` (lines 68-96). -/
def get_trades_schema : List SchemaField :=
  [ { name := "date", fieldType := "DATE", mode := "REQUIRED", defaultValueExpression := none },
    { name := "trade_id", fieldType := "STRING", mode := "REQUIRED", defaultValueExpression := none },
    { name := "symbol", fieldType := "STRING", mode := "REQUIRED", defaultValueExpression := none },
    { name := "strike_price", fieldType := "INTEGER", mode := "REQUIRED", defaultValueExpression := none },
    { name := "entry_time", fieldType := "TIMESTAMP", mode := "REQUIRED", defaultValueExpression := none },
    { name := "entry_time_est", fieldType := "STRING", mode := "REQUIRED", defaultValueExpression := none },
    { name := "entry_price", fieldType := "FLOAT", mode := "REQUIRED", defaultValueExpression := none },
    { name := "entry_spx_price", fieldType := "FLOAT", mode := "REQUIRED", defaultValueExpression := none },
    { name := "entry_macd", fieldType := "FLOAT", mode := "REQUIRED", defaultValueExpression := none },
    { name := "entry_signal", fieldType := "FLOAT", mode := "REQUIRED", defaultValueExpression := none },
    { name := "entry_histogram", fieldType := "FLOAT", mode := "REQUIRED", defaultValueExpression := none },
    { name := "exit_time", fieldType := "TIMESTAMP", mode := "NULLABLE", defaultValueExpression := none },
    { name := "exit_time_est", fieldType := "STRING", mode := "NULLABLE", defaultValueExpression := none },
    { name := "exit_price", fieldType := "FLOAT", mode := "NULLABLE", defaultValueExpression := none },
    { name := "exit_spx_price", fieldType := "FLOAT", mode := "NULLABLE", defaultValueExpression := none },
    { name := "exit_macd", fieldType := "FLOAT", mode := "NULLABLE", defaultValueExpression := none },
    { name := "exit_signal", fieldType := "FLOAT", mode := "NULLABLE", defaultValueExpression := none },
    { name := "exit_histogram", fieldType := "FLOAT", mode := "NULLABLE", defaultValueExpression := none },
    { name := "hold_duration_minutes", fieldType := "INTEGER", mode := "NULLABLE", defaultValueExpression := none },
    { name := "pnl", fieldType := "FLOAT", mode := "REQUIRED", defaultValueExpression := none },
    { name := "pnl_percent", fieldType := "FLOAT", mode := "REQUIRED", defaultValueExpression := none },
    { name := "exit_reason", fieldType := "STRING", mode := "REQUIRED", defaultValueExpression := none },
    { name := "is_winner", fieldType := "BOOLEAN", mode := "REQUIRED", defaultValueExpression := none },
    { name := "trade_sequence", fieldType := "INTEGER", mode := "REQUIRED", defaultValueExpression := none },
    { name := "created_at", fieldType := "TIMESTAMP", mode := "NULLABLE", defaultValueExpression := some "CURRENT_TIMESTAMP()" } ]

/-- `get_market_data_schema` (lines 98-109). -/
def get_market_data_schema : List SchemaField :=
  [ { name := "date", fieldType := "DATE", mode := "REQUIRED", defaultValueExpression := none },
    { name := "timestamp", fieldType := "TIMESTAMP", mode := "REQUIRED", defaultValueExpression := none },
    { name := "spx_price", fieldType := "FLOAT", mode := "REQUIRED", defaultValueExpression := none },
    { name := "spx_open", fieldType := "FLOAT", mode := "NULLABLE", defaultValueExpression := none },
    { name := "spx_high", fieldType := "FLOAT", mode := "NULLABLE", defaultValueExpression := none },
    { name := "spx_low", fieldType := "FLOAT", mode := "NULLABLE", defaultValueExpression := none },
    { name := "volume", fieldType := "INTEGER", mode := "NULLABLE", defaultValueExpression := none },
    { name := "created_at", fieldType := "TIMESTAMP", mode := "NULLABLE", defaultValueExpression := some "CURRENT_TIMESTAMP()" } ]

/-- `create_table` (lines 11-37): try a lookup, delete when found (pass on
`NotFound`), then build the table object, set daily time partitioning when a
partition field is given and clustering when cluster fields are given, and
create it. -/
def create_table (faults : Faults) (project_id dataset_name table_name : String)
    (schema : List SchemaField) (partition_field : Option String)
    (cluster_fields : Option (List String)) (e : ExecState) :
    Except ExecState ExecState := do
  let table_id := project_id ++ "." ++ dataset_name ++ "." ++ table_name
  let r ← client_get_table faults e table_id
  let e1 ← match r.2 with
    | some _ => client_delete_table faults r.1 table_id
    | none => Except.ok r.1
  let t0 := mk_table table_id (some schema)
  let t1 := match partition_field with
    | some f =>
        let tp : TimePartitioning := { type_ := TimePartitioningTypeDAY, field := some f }
        { t0 with timePartitioning := some tp }
    | none => t0
  let t2 := match cluster_fields with
    | some cs => { t1 with clusteringFields := some cs }
    | none => t1
  client_create_table faults e1 t2

/-- `create_view` (lines 111-129): try a lookup, delete when found (pass on
`NotFound`), then build the view object with the query text and create it. -/
def create_view (faults : Faults) (project_id dataset_name view_name query : String)
    (e : ExecState) : Except ExecState ExecState := do
  let view_id := project_id ++ "." ++ dataset_name ++ "." ++ view_name
  let r ← client_get_table faults e view_id
  let e1 ← match r.2 with
    | some _ => client_delete_table faults r.1 view_id
    | none => Except.ok r.1
  let v0 := mk_table view_id none
  let v1 := { v0 with viewQuery := some query }
  client_create_table faults e1 v1

/-- The `daily_performance_query` f-string (lines 136-150). -/
def daily_performance_query (project_id dataset_name : String) : String := s!"
    SELECT 
      date,
      net_pnl,
      win_rate,
      total_trades,
      spx_daily_change_percent,
      CASE 
        WHEN net_pnl > 0 THEN 'Profitable'
        WHEN net_pnl < 0 THEN 'Loss'
        ELSE 'Breakeven'
      END as day_result
    FROM `{project_id}.{dataset_name}.daily_summary`
    ORDER BY date DESC
    "

/-- The `monthly_summary_query` f-string (lines 153-166). -/
def monthly_summary_query (project_id dataset_name : String) : String := s!"
    SELECT 
      EXTRACT(YEAR FROM date) as year,
      EXTRACT(MONTH FROM date) as month,
      COUNT(*) as trading_days,
      SUM(total_trades) as total_trades,
      SUM(net_pnl) as monthly_pnl,
      AVG(win_rate) as avg_win_rate,
      COUNT(CASE WHEN net_pnl > 0 THEN 1 END) as profitable_days,
      COUNT(CASE WHEN net_pnl < 0 THEN 1 END) as loss_days
    FROM `{project_id}.{dataset_name}.daily_summary`
    GROUP BY year, month
    ORDER BY year DESC, month DESC
    "

/-- The `strike_performance_query` f-string (lines 169-181). -/
def strike_performance_query (project_id dataset_name : String) : String := s!"
    SELECT 
      strike_price,
      COUNT(*) as total_trades,
      SUM(CASE WHEN is_winner THEN 1 ELSE 0 END) as winning_trades,
      SAFE_DIVIDE(SUM(CASE WHEN is_winner THEN 1 ELSE 0 END), COUNT(*)) as win_rate,
      AVG(pnl) as avg_pnl,
      SUM(pnl) as total_pnl,
      AVG(hold_duration_minutes) as avg_hold_minutes
    FROM `{project_id}.{dataset_name}.trades`
    GROUP BY strike_price
    ORDER BY total_trades DESC
    "

/-- `create_views` (lines 131-186): the three view-provisioning calls. -/
def create_views (faults : Faults) (project_id dataset_name : String) (e : ExecState) :
    Except ExecState ExecState := do
  let e1 ← create_view faults project_id dataset_name "daily_performance"
    (daily_performance_query project_id dataset_name) e
  let e2 ← create_view faults project_id dataset_name "monthly_summary"
    (monthly_summary_query project_id dataset_name) e1
  create_view faults project_id dataset_name "strike_performance"
    (strike_performance_query project_id dataset_name) e2

/-- The `project_id` constant of `main` (line 190). -/
def the_project_id : String := "galvanic-ripsaw-381707"

/-- The `dataset_name` constant of `main` (line 191). -/
def the_dataset_name : String := "spx_trading"

/-- The dataset-ensuring block of `main` (lines 196-205): look the dataset up;
when present do nothing more; when absent create it with location "US". -/
def ensure_dataset (faults : Faults) (project_id dataset_name : String) (e : ExecState) :
    Except ExecState ExecState := do
  let dataset_id := project_id ++ "." ++ dataset_name
  let r ← client_get_dataset faults e dataset_id
  match r.2 with
  | some _ => Except.ok r.1
  | none =>
      client_create_dataset faults r.1 { datasetId := dataset_id, location := some "US" }

/-- `main` (lines 188-232): ensure the dataset, provision the three tables
(partition field `date`, per-table clustering), then the three views. -/
def main (faults : Faults) (e : ExecState) : Except ExecState ExecState := do
  let project_id := the_project_id
  let dataset_name := the_dataset_name
  let dataset_id := project_id ++ "." ++ dataset_name
  let r ← client_get_dataset faults e dataset_id
  let e1 ← match r.2 with
    | some _ => Except.ok r.1
    | none =>
        client_create_dataset faults r.1 { datasetId := dataset_id, location := some "US" }
  let e2 ← create_table faults project_id dataset_name "daily_summary"
    get_daily_summary_schema (some "date") (some ["date", "strategy"]) e1
  let e3 ← create_table faults project_id dataset_name "trades"
    get_trades_schema (some "date") (some ["date", "symbol", "trade_sequence"]) e2
  let e4 ← create_table faults project_id dataset_name "market_data_archive"
    get_market_data_schema (some "date") (some ["date", "timestamp"]) e3
  create_views faults project_id dataset_name e4

/-- The table object `create_table` builds from its arguments (lines 24-33),
written out as a function of those arguments alone. -/
def built_table (project_id dataset_name table_name : String)
    (schema : List SchemaField) (partition_field : Option String)
    (cluster_fields : Option (List String)) : BqTable :=
  let t0 := mk_table (project_id ++ "." ++ dataset_name ++ "." ++ table_name) (some schema)
  let t1 := match partition_field with
    | some f =>
        let tp : TimePartitioning := { type_ := TimePartitioningTypeDAY, field := some f }
        { t0 with timePartitioning := some tp }
    | none => t0
  match cluster_fields with
  | some cs => { t1 with clusteringFields := some cs }
  | none => t1

/-- The view object `create_view` builds from its arguments (lines 124-125). -/
def built_view (project_id dataset_name view_name query : String) : BqTable :=
  { mk_table (project_id ++ "." ++ dataset_name ++ "." ++ view_name) none with
    viewQuery := some query }

/-- The `daily_summary` table object the script provisions. -/
def daily_summary_table : BqTable :=
  built_table the_project_id the_dataset_name "daily_summary"
    get_daily_summary_schema (some "date") (some ["date", "strategy"])

/-- The `trades` table object the script provisions. -/
def trades_table : BqTable :=
  built_table the_project_id the_dataset_name "trades"
    get_trades_schema (some "date") (some ["date", "symbol", "trade_sequence"])

/-- The `market_data_archive` table object the script provisions. -/
def market_data_archive_table : BqTable :=
  built_table the_project_id the_dataset_name "market_data_archive"
    get_market_data_schema (some "date") (some ["date", "timestamp"])

/-- The `daily_performance` view object the script provisions. -/
def daily_performance_view : BqTable :=
  built_view the_project_id the_dataset_name "daily_performance"
    (daily_performance_query the_project_id the_dataset_name)

/-- The `monthly_summary` view object the script provisions. -/
def monthly_summary_view : BqTable :=
  built_view the_project_id the_dataset_name "monthly_summary"
    (monthly_summary_query the_project_id the_dataset_name)

/-- The `strike_performance` view object the script provisions. -/
def strike_performance_view : BqTable :=
  built_view the_project_id the_dataset_name "strike_performance"
    (strike_performance_query the_project_id the_dataset_name)

/-- What `client.delete_table` leaves behind: every object of another id. -/
def filter_out (tableId : String) (l : List BqTable) : List BqTable :=
  l.filter (fun t => !(t.tableId == tableId))

/-- Fully qualified id of the `daily_summary` table. -/
def daily_summary_id : String :=
  the_project_id ++ "." ++ the_dataset_name ++ "." ++ "daily_summary"

/-- Fully qualified id of the `trades` table. -/
def trades_id : String :=
  the_project_id ++ "." ++ the_dataset_name ++ "." ++ "trades"

/-- Fully qualified id of the `market_data_archive` table. -/
def market_data_archive_id : String :=
  the_project_id ++ "." ++ the_dataset_name ++ "." ++ "market_data_archive"

/-- Fully qualified id of the `daily_performance` view. -/
def daily_performance_id : String :=
  the_project_id ++ "." ++ the_dataset_name ++ "." ++ "daily_performance"

/-- Fully qualified id of the `monthly_summary` view. -/
def monthly_summary_id : String :=
  the_project_id ++ "." ++ the_dataset_name ++ "." ++ "monthly_summary"

/-- Fully qualified id of the `strike_performance` view. -/
def strike_performance_id : String :=
  the_project_id ++ "." ++ the_dataset_name ++ "." ++ "strike_performance"

/-- The table list a fault-free run of `main` ends with, as a function of the
initial table list: each provisioned object sits in front of the deletion
residue of the step that created it. -/
def final_tables (l : List BqTable) : List BqTable :=
  strike_performance_view :: filter_out strike_performance_id
    (monthly_summary_view :: filter_out monthly_summary_id
      (daily_performance_view :: filter_out daily_performance_id
        (market_data_archive_table :: filter_out market_data_archive_id
          (trades_table :: filter_out trades_id
            (daily_summary_table :: filter_out daily_summary_id l)))))

/-- The warehouse state a fault-free run of the script ends with. -/
def run_script (s : WarehouseState) : WarehouseState :=
  match main no_faults { state := s, trace := [] } with
  | Except.ok e => e.state
  | Except.error e => e.state

/-- The seven provisioning steps of `main`, in source order: dataset, the
three tables, the three views. -/
def script_steps (faults : Faults) : List (ExecState → Except ExecState ExecState) :=
  [ ensure_dataset faults the_project_id the_dataset_name,
    create_table faults the_project_id the_dataset_name "daily_summary"
      get_daily_summary_schema (some "date") (some ["date", "strategy"]),
    create_table faults the_project_id the_dataset_name "trades"
      get_trades_schema (some "date") (some ["date", "symbol", "trade_sequence"]),
    create_table faults the_project_id the_dataset_name "market_data_archive"
      get_market_data_schema (some "date") (some ["date", "timestamp"]),
    create_view faults the_project_id the_dataset_name "daily_performance"
      (daily_performance_query the_project_id the_dataset_name),
    create_view faults the_project_id the_dataset_name "monthly_summary"
      (monthly_summary_query the_project_id the_dataset_name),
    create_view faults the_project_id the_dataset_name "strike_performance"
      (strike_performance_query the_project_id the_dataset_name) ]

/-- Sequential execution of steps: an error stops the run and is returned
unchanged. -/
def run_seq : List (ExecState → Except ExecState ExecState) → ExecState →
    Except ExecState ExecState
  | [], e => Except.ok e
  | f :: fs, e =>
      match f e with
      | Except.ok e1 => run_seq fs e1
      | Except.error e1 => Except.error e1

/-- Whether a recorded call is a create-dataset call. -/
def is_create_dataset_call : ApiCall → Bool
  | ApiCall.createDataset _ => true
  | _ => false

/-- Whether the pattern is an initial segment of the text. -/
def chars_lead : List Char → List Char → Bool
  | [], _ => true
  | _ :: _, [] => false
  | p :: ps, c :: cs => p == c && chars_lead ps cs

/-- Whether the pattern occurs somewhere in the text. -/
def chars_found (p : List Char) : List Char → Bool
  | [] => chars_lead p []
  | c :: cs => chars_lead p (c :: cs) || chars_found p cs

/-- Whether `pat` occurs as a contiguous substring of `q`. -/
def str_has (q pat : String) : Bool := chars_found pat.data q.data

/-- The `day_result` CASE expression of `daily_performance_query` (lines
143-147), read as a function on the sign of `net_pnl` (FLOAT values are
modelled by rationals). -/
def day_result (net_pnl : ℚ) : String :=
  if net_pnl > 0 then "Profitable"
  else if net_pnl < 0 then "Loss"
  else "Breakeven"

/-! ## Basic lemmas about lookup, filtering and sequencing -/

lemma lookup_none_filter_eq {l : List BqTable} {tid : String}
    (h : lookup_table l tid = none) : filter_out tid l = l := by
  rw [lookup_table, List.find?_eq_none] at h
  rw [filter_out, List.filter_eq_self]
  intro x hx
  simpa using h x hx

lemma lookup_table_cons_eq {t : BqTable} {l : List BqTable} {id : String}
    (h : t.tableId = id) : lookup_table (t :: l) id = some t := by
  simp [lookup_table, List.find?_cons, h]

lemma lookup_table_cons_ne {t : BqTable} {l : List BqTable} {id : String}
    (h : ¬ t.tableId = id) : lookup_table (t :: l) id = lookup_table l id := by
  simp [lookup_table, List.find?_cons, h]

lemma lookup_table_filter_out {l : List BqTable} {tid id : String} (h : ¬ id = tid) :
    lookup_table (filter_out tid l) id = lookup_table l id := by
  induction l with
  | nil => rfl
  | cons t ts ih =>
      by_cases ht : t.tableId = tid
      · have hne : ¬ t.tableId = id := fun hh => h (hh.symm.trans ht)
        simp [filter_out, List.filter_cons, ht, lookup_table_cons_ne hne] at ih ⊢
        exact ih
      · by_cases hid : t.tableId = id
        · simp [filter_out, List.filter_cons, ht, lookup_table_cons_eq hid]
        · simp [filter_out, List.filter_cons, ht, lookup_table_cons_ne hid] at ih ⊢
          exact ih

lemma run_seq_cons (f : ExecState → Except ExecState ExecState)
    (fs : List (ExecState → Except ExecState ExecState)) (e : ExecState) :
    run_seq (f :: fs) e = f e >>= run_seq fs := by
  cases h : f e <;> simp [run_seq, h, Bind.bind, Except.bind]

lemma except_bind_ok (x : Except ExecState ExecState) : x >>= Except.ok = x := by
  cases x <;> rfl

/-! ## Canonical forms of the provisioning functions under a fault-free client -/

lemma create_table_no_faults (pid dn tn : String) (sch : List SchemaField)
    (pf : Option String) (cf : Option (List String)) (e : ExecState) :
    create_table no_faults pid dn tn sch pf cf e =
      Except.ok
        { state := { datasets := e.state.datasets,
                     tables := built_table pid dn tn sch pf cf ::
                       filter_out (pid ++ "." ++ dn ++ "." ++ tn) e.state.tables },
          trace := e.trace ++
            (if (lookup_table e.state.tables (pid ++ "." ++ dn ++ "." ++ tn)).isSome then
              [ApiCall.getTable (pid ++ "." ++ dn ++ "." ++ tn),
               ApiCall.deleteTable (pid ++ "." ++ dn ++ "." ++ tn),
               ApiCall.createTable (built_table pid dn tn sch pf cf)]
            else
              [ApiCall.getTable (pid ++ "." ++ dn ++ "." ++ tn),
               ApiCall.createTable (built_table pid dn tn sch pf cf)]) } := by
  cases h : lookup_table e.state.tables (pid ++ "." ++ dn ++ "." ++ tn) with
  | none =>
      simp [create_table, client_get_table, client_delete_table, client_create_table,
        no_faults, h, built_table, lookup_none_filter_eq h, Bind.bind, Except.bind]
  | some t =>
      simp [create_table, client_get_table, client_delete_table, client_create_table,
        no_faults, h, built_table, filter_out, Bind.bind, Except.bind]

lemma create_view_no_faults (pid dn vn q : String) (e : ExecState) :
    create_view no_faults pid dn vn q e =
      Except.ok
        { state := { datasets := e.state.datasets,
                     tables := built_view pid dn vn q ::
                       filter_out (pid ++ "." ++ dn ++ "." ++ vn) e.state.tables },
          trace := e.trace ++
            (if (lookup_table e.state.tables (pid ++ "." ++ dn ++ "." ++ vn)).isSome then
              [ApiCall.getTable (pid ++ "." ++ dn ++ "." ++ vn),
               ApiCall.deleteTable (pid ++ "." ++ dn ++ "." ++ vn),
               ApiCall.createTable (built_view pid dn vn q)]
            else
              [ApiCall.getTable (pid ++ "." ++ dn ++ "." ++ vn),
               ApiCall.createTable (built_view pid dn vn q)]) } := by
  cases h : lookup_table e.state.tables (pid ++ "." ++ dn ++ "." ++ vn) with
  | none =>
      simp [create_view, client_get_table, client_delete_table, client_create_table,
        no_faults, h, built_view, lookup_none_filter_eq h, Bind.bind, Except.bind]
  | some t =>
      simp [create_view, client_get_table, client_delete_table, client_create_table,
        no_faults, h, built_view, filter_out, Bind.bind, Except.bind]

lemma ensure_dataset_no_faults (pid dn : String) (e : ExecState) :
    ensure_dataset no_faults pid dn e =
      Except.ok
        (if (lookup_dataset e.state.datasets (pid ++ "." ++ dn)).isSome then
          { e with trace := e.trace ++ [ApiCall.getDataset (pid ++ "." ++ dn)] }
        else
          { state :=
              { datasets := ({ datasetId := pid ++ "." ++ dn, location := some "US" } : BqDataset) :: e.state.datasets,
                tables := e.state.tables },
            trace := e.trace ++
              [ApiCall.getDataset (pid ++ "." ++ dn),
               ApiCall.createDataset { datasetId := pid ++ "." ++ dn, location := some "US" }] }) := by
  cases h : lookup_dataset e.state.datasets (pid ++ "." ++ dn) <;>
    simp [ensure_dataset, client_get_dataset, client_create_dataset,
      no_faults, h, Bind.bind, Except.bind]

/-! ## `main` as the sequence of its seven provisioning steps -/

lemma run_seq_nil_fun : run_seq [] = Except.ok := by
  funext e
  rfl

lemma except_ok_bind {α β : Type} (a : α) (k : α → Except ExecState β) :
    (Except.ok a : Except ExecState α) >>= k = k a := rfl

lemma except_error_bind {α β : Type} (e1 : ExecState) (k : α → Except ExecState β) :
    (Except.error e1 : Except ExecState α) >>= k = Except.error e1 := rfl

lemma run_seq_cons_fun (f : ExecState → Except ExecState ExecState)
    (fs : List (ExecState → Except ExecState ExecState)) :
    run_seq (f :: fs) = fun e => f e >>= run_seq fs := by
  funext e
  exact run_seq_cons f fs e

lemma main_eq_run_seq (faults : Faults) (e : ExecState) :
    main faults e = run_seq (script_steps faults) e := by
  simp only [main, script_steps, run_seq_cons_fun, run_seq_nil_fun, ensure_dataset,
    create_views, bind_assoc, except_bind_ok]
  cases hg : client_get_dataset faults e (the_project_id ++ "." ++ the_dataset_name) with
  | error e1 => simp [hg, except_error_bind]
  | ok r =>
      rcases r with ⟨e1, d⟩
      cases d <;> simp [hg, except_ok_bind]

lemma run_seq_take_error {l : List (ExecState → Except ExecState ExecState)}
    {k : Nat} {e e' : ExecState}
    (h : run_seq (l.take k) e = Except.error e') : run_seq l e = Except.error e' := by
  induction l generalizing k e with
  | nil =>
      rw [List.take_nil] at h
      simp [run_seq] at h
  | cons f fs ih =>
      cases k with
      | zero => simp [run_seq] at h
      | succ k =>
          rw [List.take_succ_cons] at h
          rw [run_seq_cons] at h ⊢
          cases hf : f e with
          | error e1 => simp [hf, Bind.bind, Except.bind] at h ⊢; exact h
          | ok e1 =>
              simp only [hf, Bind.bind, Except.bind] at h ⊢
              exact ih h

/-! ## The fault-free run of the whole script -/

lemma main_no_faults_ok (s : WarehouseState) (tr : List ApiCall) :
    ∃ e', main no_faults { state := s, trace := tr } = Except.ok e' ∧
      e'.state.tables = final_tables s.tables := by
  rw [main_eq_run_seq]
  simp only [script_steps, run_seq_cons, run_seq]
  rw [ensure_dataset_no_faults]
  by_cases hd : (lookup_dataset s.datasets (the_project_id ++ "." ++ the_dataset_name)).isSome <;>
    simp only [hd, if_true, if_false, Bind.bind, Except.bind, reduceIte] <;>
    · rw [create_table_no_faults]
      simp only [Except.bind]
      rw [create_table_no_faults]
      simp only [Except.bind]
      rw [create_table_no_faults]
      simp only [Except.bind]
      rw [create_view_no_faults]
      simp only [Except.bind]
      rw [create_view_no_faults]
      simp only [Except.bind]
      rw [create_view_no_faults]
      simp only [Except.bind]
      refine ⟨_, rfl, ?_⟩
      simp [final_tables, daily_summary_table, trades_table, market_data_archive_table,
        daily_performance_view, monthly_summary_view, strike_performance_view,
        daily_summary_id, trades_id, market_data_archive_id,
        daily_performance_id, monthly_summary_id, strike_performance_id]

lemma run_script_tables (s : WarehouseState) :
    (run_script s).tables = final_tables s.tables := by
  obtain ⟨e', hm, ht⟩ := main_no_faults_ok s []
  rw [run_script, hm]
  exact ht

/-! ## Each provisioned object, looked up in the final state -/

lemma lookup_final_daily_summary (l : List BqTable) :
    lookup_table (final_tables l) daily_summary_id = some daily_summary_table := by
  rw [final_tables,
    lookup_table_cons_ne (by decide), lookup_table_filter_out (by decide),
    lookup_table_cons_ne (by decide), lookup_table_filter_out (by decide),
    lookup_table_cons_ne (by decide), lookup_table_filter_out (by decide),
    lookup_table_cons_ne (by decide), lookup_table_filter_out (by decide),
    lookup_table_cons_ne (by decide), lookup_table_filter_out (by decide),
    lookup_table_cons_eq (by decide)]

lemma lookup_final_trades (l : List BqTable) :
    lookup_table (final_tables l) trades_id = some trades_table := by
  rw [final_tables,
    lookup_table_cons_ne (by decide), lookup_table_filter_out (by decide),
    lookup_table_cons_ne (by decide), lookup_table_filter_out (by decide),
    lookup_table_cons_ne (by decide), lookup_table_filter_out (by decide),
    lookup_table_cons_ne (by decide), lookup_table_filter_out (by decide),
    lookup_table_cons_eq (by decide)]

lemma lookup_final_market_data_archive (l : List BqTable) :
    lookup_table (final_tables l) market_data_archive_id = some market_data_archive_table := by
  rw [final_tables,
    lookup_table_cons_ne (by decide), lookup_table_filter_out (by decide),
    lookup_table_cons_ne (by decide), lookup_table_filter_out (by decide),
    lookup_table_cons_ne (by decide), lookup_table_filter_out (by decide),
    lookup_table_cons_eq (by decide)]

lemma lookup_final_daily_performance (l : List BqTable) :
    lookup_table (final_tables l) daily_performance_id = some daily_performance_view := by
  rw [final_tables,
    lookup_table_cons_ne (by decide), lookup_table_filter_out (by decide),
    lookup_table_cons_ne (by decide), lookup_table_filter_out (by decide),
    lookup_table_cons_eq (by decide)]

lemma lookup_final_monthly_summary (l : List BqTable) :
    lookup_table (final_tables l) monthly_summary_id = some monthly_summary_view := by
  rw [final_tables,
    lookup_table_cons_ne (by decide), lookup_table_filter_out (by decide),
    lookup_table_cons_eq (by decide)]

lemma lookup_final_strike_performance (l : List BqTable) :
    lookup_table (final_tables l) strike_performance_id = some strike_performance_view := by
  rw [final_tables, lookup_table_cons_eq (by decide)]

/-! ## Claims -/

set_option maxRecDepth 8000 in
/-- C1: the schema definition functions return exactly 24 columns for
`daily_summary`, 25 for `trades` and 8 for `market_data_archive`; every column
carries a mode that is REQUIRED or NULLABLE and one of the documented scalar
types, and no column name repeats within a table. -/
theorem c1_schema_columns :
    get_daily_summary_schema.length = 24 ∧
    get_trades_schema.length = 25 ∧
    get_market_data_schema.length = 8 ∧
    ((get_daily_summary_schema ++ get_trades_schema ++ get_market_data_schema).all
      (fun f => (f.mode == "REQUIRED" || f.mode == "NULLABLE") &&
        (f.fieldType == "DATE" || f.fieldType == "STRING" || f.fieldType == "INTEGER" ||
         f.fieldType == "FLOAT" || f.fieldType == "TIMESTAMP" ||
         f.fieldType == "BOOLEAN"))) = true ∧
    (get_daily_summary_schema.map SchemaField.name).Nodup ∧
    (get_trades_schema.map SchemaField.name).Nodup ∧
    (get_market_data_schema.map SchemaField.name).Nodup :=
  ⟨rfl, rfl, rfl, by decide, by decide, by decide, by decide⟩

/-- C2: running the full provisioning script twice in succession leaves, for
each of the three tables and three views, exactly the object a single run
leaves — the end state is idempotent despite the destructive intermediate
deletes. -/
theorem c2_rerun_idempotent (s : WarehouseState) :
    lookup_table (run_script (run_script s)).tables daily_summary_id =
      lookup_table (run_script s).tables daily_summary_id ∧
    lookup_table (run_script (run_script s)).tables trades_id =
      lookup_table (run_script s).tables trades_id ∧
    lookup_table (run_script (run_script s)).tables market_data_archive_id =
      lookup_table (run_script s).tables market_data_archive_id ∧
    lookup_table (run_script (run_script s)).tables daily_performance_id =
      lookup_table (run_script s).tables daily_performance_id ∧
    lookup_table (run_script (run_script s)).tables monthly_summary_id =
      lookup_table (run_script s).tables monthly_summary_id ∧
    lookup_table (run_script (run_script s)).tables strike_performance_id =
      lookup_table (run_script s).tables strike_performance_id := by
  refine ⟨?_, ?_, ?_, ?_, ?_, ?_⟩ <;>
    rw [run_script_tables, run_script_tables] <;>
    simp [lookup_final_daily_summary, lookup_final_trades,
      lookup_final_market_data_archive, lookup_final_daily_performance,
      lookup_final_monthly_summary, lookup_final_strike_performance]

lemma built_table_tableId (pid dn tn : String) (sch : List SchemaField)
    (pf : Option String) (cf : Option (List String)) :
    (built_table pid dn tn sch pf cf).tableId = pid ++ "." ++ dn ++ "." ++ tn := by
  cases pf <;> cases cf <;> rfl

/-- C3: `create_table` and `create_view` delete a pre-existing object of the
target name before creating the new one (and perform no delete when none
exists: the trace gains get-delete-create exactly when the lookup found one,
get-create otherwise), and the object stored afterwards is built from the call
arguments alone, so no property of the pre-existing object survives. -/
theorem c3_delete_before_create :
    (∀ (pid dn tn : String) (sch : List SchemaField) (pf : Option String)
        (cf : Option (List String)) (e : ExecState),
      ∃ e', create_table no_faults pid dn tn sch pf cf e = Except.ok e' ∧
        lookup_table e'.state.tables (pid ++ "." ++ dn ++ "." ++ tn) =
          some (built_table pid dn tn sch pf cf) ∧
        e'.trace = e.trace ++
          (if (lookup_table e.state.tables (pid ++ "." ++ dn ++ "." ++ tn)).isSome then
            [ApiCall.getTable (pid ++ "." ++ dn ++ "." ++ tn),
             ApiCall.deleteTable (pid ++ "." ++ dn ++ "." ++ tn),
             ApiCall.createTable (built_table pid dn tn sch pf cf)]
          else
            [ApiCall.getTable (pid ++ "." ++ dn ++ "." ++ tn),
             ApiCall.createTable (built_table pid dn tn sch pf cf)])) ∧
    (∀ (pid dn vn q : String) (e : ExecState),
      ∃ e', create_view no_faults pid dn vn q e = Except.ok e' ∧
        lookup_table e'.state.tables (pid ++ "." ++ dn ++ "." ++ vn) =
          some (built_view pid dn vn q) ∧
        e'.trace = e.trace ++
          (if (lookup_table e.state.tables (pid ++ "." ++ dn ++ "." ++ vn)).isSome then
            [ApiCall.getTable (pid ++ "." ++ dn ++ "." ++ vn),
             ApiCall.deleteTable (pid ++ "." ++ dn ++ "." ++ vn),
             ApiCall.createTable (built_view pid dn vn q)]
          else
            [ApiCall.getTable (pid ++ "." ++ dn ++ "." ++ vn),
             ApiCall.createTable (built_view pid dn vn q)])) := by
  constructor
  · intro pid dn tn sch pf cf e
    rw [create_table_no_faults]
    exact ⟨_, rfl, lookup_table_cons_eq (built_table_tableId pid dn tn sch pf cf), rfl⟩
  · intro pid dn vn q e
    rw [create_view_no_faults]
    exact ⟨_, rfl, lookup_table_cons_eq rfl, rfl⟩

/-- C4: the dataset ensurer does not raise and makes no create-dataset call
when the lookup finds the dataset; when the lookup signals not-found it makes
exactly one create-dataset call, with the fixed location "US". -/
theorem c4_dataset_ensurer (pid dn : String) (e : ExecState) :
    ∃ e', ensure_dataset no_faults pid dn e = Except.ok e' ∧
      (e'.trace.drop e.trace.length).filter is_create_dataset_call =
        (if (lookup_dataset e.state.datasets (pid ++ "." ++ dn)).isSome then []
         else [ApiCall.createDataset
           { datasetId := pid ++ "." ++ dn, location := some "US" }]) := by
  rw [ensure_dataset_no_faults]
  by_cases hd : (lookup_dataset e.state.datasets (pid ++ "." ++ dn)).isSome <;>
    simp [hd, is_create_dataset_call, List.drop_left]

/-- C5: errors propagate uncaught and abort the rest of the run: whenever a
prefix of the script's step sequence (dataset, the three tables, the three
views, in order) ends in an error with execution state e', the whole `main`
returns that very error — the trace shows no call of any later step and the
warehouse state is exactly the one at the failure (no rollback). -/
theorem c5_failure_aborts_rest (faults : Faults) (e e' : ExecState) (k : Nat)
    (h : run_seq ((script_steps faults).take k) e = Except.error e') :
    main faults e = Except.error e' := by
  rw [main_eq_run_seq]
  exact run_seq_take_error h

/-- A client whose get-dataset call raises a non-not-found error. -/
def fault_get_dataset : Faults
  | ApiCall.getDataset _ => true
  | _ => false

/-- Witness for C5: with a faulty get-dataset call, the one-step prefix fails
right away and `main` returns exactly that failure. -/
theorem c5_failure_aborts_rest_witness :
    main fault_get_dataset { state := { datasets := [], tables := [] }, trace := [] } =
      Except.error { state := { datasets := [], tables := [] },
                     trace := [ApiCall.getDataset "galvanic-ripsaw-381707.spx_trading"] } :=
  c5_failure_aborts_rest fault_get_dataset
    { state := { datasets := [], tables := [] }, trace := [] }
    { state := { datasets := [], tables := [] },
      trace := [ApiCall.getDataset "galvanic-ripsaw-381707.spx_trading"] }
    1 rfl

/-- C6: each of the three table-provisioning calls passes partition field
`date` with daily granularity and its declared clustering list, and the
created table objects carry exactly these. -/
theorem c6_partitioning_and_clustering (s : WarehouseState) :
    lookup_table (run_script s).tables daily_summary_id = some daily_summary_table ∧
    daily_summary_table.timePartitioning = some { type_ := "DAY", field := some "date" } ∧
    daily_summary_table.clusteringFields = some ["date", "strategy"] ∧
    lookup_table (run_script s).tables trades_id = some trades_table ∧
    trades_table.timePartitioning = some { type_ := "DAY", field := some "date" } ∧
    trades_table.clusteringFields = some ["date", "symbol", "trade_sequence"] ∧
    lookup_table (run_script s).tables market_data_archive_id =
      some market_data_archive_table ∧
    market_data_archive_table.timePartitioning =
      some { type_ := "DAY", field := some "date" } ∧
    market_data_archive_table.clusteringFields = some ["date", "timestamp"] := by
  refine ⟨?_, rfl, rfl, ?_, rfl, rfl, ?_, rfl, rfl⟩ <;> rw [run_script_tables]
  · exact lookup_final_daily_summary s.tables
  · exact lookup_final_trades s.tables
  · exact lookup_final_market_data_archive s.tables

set_option maxRecDepth 8000 in
/-- C7: the daily_performance view query projects the summary columns plus a
derived day_result column classifying each row by the sign of net_pnl
(Profitable when positive, Loss when negative, Breakeven otherwise), and
orders the result by date descending. -/
theorem c7_daily_performance_query (x : ℚ) :
    (0 < x → day_result x = "Profitable") ∧
    (x < 0 → day_result x = "Loss") ∧
    (x = 0 → day_result x = "Breakeven") ∧
    str_has (daily_performance_query the_project_id the_dataset_name)
      "WHEN net_pnl > 0 THEN 'Profitable'" = true ∧
    str_has (daily_performance_query the_project_id the_dataset_name)
      "WHEN net_pnl < 0 THEN 'Loss'" = true ∧
    str_has (daily_performance_query the_project_id the_dataset_name)
      "ELSE 'Breakeven'" = true ∧
    str_has (daily_performance_query the_project_id the_dataset_name)
      "END as day_result" = true ∧
    str_has (daily_performance_query the_project_id the_dataset_name)
      "ORDER BY date DESC" = true ∧
    str_has (daily_performance_query the_project_id the_dataset_name)
      "date," = true ∧
    str_has (daily_performance_query the_project_id the_dataset_name)
      "net_pnl," = true ∧
    str_has (daily_performance_query the_project_id the_dataset_name)
      "win_rate," = true ∧
    str_has (daily_performance_query the_project_id the_dataset_name)
      "total_trades," = true ∧
    str_has (daily_performance_query the_project_id the_dataset_name)
      "spx_daily_change_percent," = true := by
  refine ⟨?_, ?_, ?_, by decide, by decide, by decide, by decide, by decide,
    by decide, by decide, by decide, by decide, by decide⟩
  · intro h
    rw [day_result, if_pos h]
  · intro h
    rw [day_result, if_neg (by linarith), if_pos h]
  · intro h
    rw [day_result, if_neg (by simp [h]), if_neg (by simp [h])]

/-- Witness for C7: the classification evaluated at a positive, a negative and
a zero net P&L. -/
theorem c7_daily_performance_query_witness :
    day_result 1 = "Profitable" ∧ day_result (-1) = "Loss" ∧
    day_result 0 = "Breakeven" :=
  ⟨(c7_daily_performance_query 1).1 (by norm_num),
   ((c7_daily_performance_query (-1)).2).1 (by norm_num),
   (((c7_daily_performance_query 0).2).2).1 rfl⟩

set_option maxRecDepth 8000 in
/-- C8: with the compile-time project and dataset constants, every view query
string contains the fully-qualified reference of its correct upstream table
(daily_performance and monthly_summary read daily_summary, strike_performance
reads trades) and not of the other table, and the provisioned view objects
carry exactly these query strings whatever the initial state. -/
theorem c8_view_queries_upstream :
    str_has (daily_performance_query the_project_id the_dataset_name)
      "`galvanic-ripsaw-381707.spx_trading.daily_summary`" = true ∧
    str_has (monthly_summary_query the_project_id the_dataset_name)
      "`galvanic-ripsaw-381707.spx_trading.daily_summary`" = true ∧
    str_has (strike_performance_query the_project_id the_dataset_name)
      "`galvanic-ripsaw-381707.spx_trading.trades`" = true ∧
    str_has (daily_performance_query the_project_id the_dataset_name)
      ".trades`" = false ∧
    str_has (monthly_summary_query the_project_id the_dataset_name)
      ".trades`" = false ∧
    str_has (strike_performance_query the_project_id the_dataset_name)
      ".daily_summary`" = false ∧
    (∀ s : WarehouseState,
      lookup_table (run_script s).tables daily_performance_id =
        some daily_performance_view ∧
      lookup_table (run_script s).tables monthly_summary_id =
        some monthly_summary_view ∧
      lookup_table (run_script s).tables strike_performance_id =
        some strike_performance_view) ∧
    daily_performance_view.viewQuery =
      some (daily_performance_query the_project_id the_dataset_name) ∧
    monthly_summary_view.viewQuery =
      some (monthly_summary_query the_project_id the_dataset_name) ∧
    strike_performance_view.viewQuery =
      some (strike_performance_query the_project_id the_dataset_name) := by
  refine ⟨by decide, by decide, by decide, by decide, by decide, by decide,
    ?_, rfl, rfl, rfl⟩
  intro s
  rw [run_script_tables]
  exact ⟨lookup_final_daily_performance s.tables,
    lookup_final_monthly_summary s.tables,
    lookup_final_strike_performance s.tables⟩

/-- C9: for each table-provisioning call the partition field `date` is also
the first clustering column, and `date` is a REQUIRED DATE column standing
first in every table schema. -/
theorem c9_date_first_everywhere (s : WarehouseState) :
    lookup_table (run_script s).tables daily_summary_id = some daily_summary_table ∧
    Option.map TimePartitioning.field daily_summary_table.timePartitioning =
      some (some "date") ∧
    Option.map List.head? daily_summary_table.clusteringFields = some (some "date") ∧
    daily_summary_table.schema = some get_daily_summary_schema ∧
    get_daily_summary_schema.head? = some
      { name := "date", fieldType := "DATE", mode := "REQUIRED",
        defaultValueExpression := none } ∧
    lookup_table (run_script s).tables trades_id = some trades_table ∧
    Option.map TimePartitioning.field trades_table.timePartitioning =
      some (some "date") ∧
    Option.map List.head? trades_table.clusteringFields = some (some "date") ∧
    trades_table.schema = some get_trades_schema ∧
    get_trades_schema.head? = some
      { name := "date", fieldType := "DATE", mode := "REQUIRED",
        defaultValueExpression := none } ∧
    lookup_table (run_script s).tables market_data_archive_id =
      some market_data_archive_table ∧
    Option.map TimePartitioning.field market_data_archive_table.timePartitioning =
      some (some "date") ∧
    Option.map List.head? market_data_archive_table.clusteringFields =
      some (some "date") ∧
    market_data_archive_table.schema = some get_market_data_schema ∧
    get_market_data_schema.head? = some
      { name := "date", fieldType := "DATE", mode := "REQUIRED",
        defaultValueExpression := none } := by
  refine ⟨?_, rfl, rfl, rfl, rfl, ?_, rfl, rfl, rfl, rfl, ?_, rfl, rfl, rfl, rfl⟩ <;>
    rw [run_script_tables]
  · exact lookup_final_daily_summary s.tables
  · exact lookup_final_trades s.tables
  · exact lookup_final_market_data_archive s.tables

set_option maxRecDepth 8000 in
/-- C10: every table schema carries a created_at TIMESTAMP NULLABLE column
whose default-value expression is CURRENT_TIMESTAMP(), and the daily_summary
strategy column carries the default-value expression 'MACD_Momentum'. -/
theorem c10_default_value_expressions :
    get_daily_summary_schema.find? (fun f => f.name == "created_at") = some
      { name := "created_at", fieldType := "TIMESTAMP", mode := "NULLABLE",
        defaultValueExpression := some "CURRENT_TIMESTAMP()" } ∧
    get_trades_schema.find? (fun f => f.name == "created_at") = some
      { name := "created_at", fieldType := "TIMESTAMP", mode := "NULLABLE",
        defaultValueExpression := some "CURRENT_TIMESTAMP()" } ∧
    get_market_data_schema.find? (fun f => f.name == "created_at") = some
      { name := "created_at", fieldType := "TIMESTAMP", mode := "NULLABLE",
        defaultValueExpression := some "CURRENT_TIMESTAMP()" } ∧
    get_daily_summary_schema.find? (fun f => f.name == "strategy") = some
      { name := "strategy", fieldType := "STRING", mode := "REQUIRED",
        defaultValueExpression := some "'MACD_Momentum'" } := by
  refine ⟨by decide, by decide, by decide, by decide⟩

end SpxBq
